import Mathlib

/-!
Shallow embedding of the two domain modules of the repository
(`products/__init__.py` and `cart/__init__.py`).

The dynamically-typed dictionaries of Python are modelled by an inductive
`Value` type; a dictionary is an association list keyed by strings.
The external DAO is a record of functions: read operations return
`Except Unit _` (an `Except.error` models the DAO call raising), and
write operations are recorded in an explicit log of `DaoWrite` events
(the boolean `_ok` fields of the DAO record say whether the write call
returns normally or raises).  A Python function that may raise is
embedded as a function into `Except`; a function that catches all
exceptions at its boundary has a plain return type.
-/

/-- A Python runtime value, restricted to the shapes these modules touch.
`vnone` is the `None` of Python.  Floats are modelled as rationals: the code
only passes them through and compares them with `0`, no float
arithmetic occurs. -/
inductive Value where
  | int (n : Int)
  | float (q : ℚ)
  | str (s : String)
  | vnone
  | list (l : List Value)
  | dict (d : List (String × Value))

/-- A Python dictionary with string keys. -/
abbrev Dict := List (String × Value)

/-- Lookup in a dictionary (first binding wins, as keys are unique in
Python dictionaries). -/
def dictGet (d : Dict) (k : String) : Option Value :=
  (d.find? (fun kv => kv.fst == k)).map Prod.snd

/-- Python truthiness for the value shapes we model: `None`, `0`, the
empty string, list and dictionary are falsy. -/
def pyTruthy : Value → Bool
  | Value.int n => n != 0
  | Value.float q => q != 0
  | Value.str s => s != ""
  | Value.vnone => false
  | Value.list [] => false
  | Value.list (_ :: _) => true
  | Value.dict [] => false
  | Value.dict (_ :: _) => true

/-- The Python builtin `int(x)`.  `int` of an int is the identity, of a float it
truncates toward zero, of a string it parses a decimal integer
(Python also strips surrounding whitespace there, which we do not
model; no claim exercises that corner).  Other arguments raise
`TypeError`. -/
def pyInt : Value → Except String Int
  | Value.int n => Except.ok n
  | Value.float q => Except.ok (q.num.tdiv q.den)
  | Value.str s =>
      match s.toInt? with
      | some n => Except.ok n
      | Option.none => Except.error "ValueError: invalid literal for int"
  | _ => Except.error "TypeError: int() argument"

/-- The Python builtin `float(x)`.  Identity on numbers.  `float` of a numeric
string succeeds in Python; we map all strings to an error (no claim
depends on numeric-string coercion of the `cost` field). -/
def pyFloat : Value → Except String ℚ
  | Value.int n => Except.ok (n : ℚ)
  | Value.float q => Except.ok q
  | Value.str _ => Except.error "ValueError: could not convert string to float"
  | _ => Except.error "TypeError: float() argument"

/-- The Python builtin `str(x)`: total, every value has a string form.  Only the
string case is exercised by the claims; the other cases are the Python
textual forms, abbreviated. -/
def pyStr : Value → String
  | Value.str s => s
  | Value.int n => toString n
  | Value.float q => toString q
  | Value.vnone => "None"
  | Value.list _ => "[...]"
  | Value.dict _ => "dict"

/-- Dictionary access `d[k]`: a missing key raises `KeyError`. -/
def dictGetE (d : Dict) (k : String) : Except String Value :=
  match dictGet d k with
  | some v => Except.ok v
  | Option.none => Except.error ("KeyError: " ++ k)

/-- The `Product` dataclass (`products/__init__.py`, lines 5-11).
Fields carry the types of the dataclass annotations: every Product in
this development is built by `from_dict`, which coerces each field to
exactly these types, so the `isinstance` re-checks inside `validate`
hold by typing. -/
structure Product where
  id : Int
  name : String
  description : String
  cost : ℚ
  qty : Int
deriving DecidableEq

/-- `Product.from_dict` (lines 13-28): field lookups and coercions in
source order; `qty` defaults to `0` via `data.get("qty", 0)`; any
`KeyError`/`ValueError`/`TypeError` is re-raised as a `ValueError`
(here: any `Except.error`). -/
def Product.from_dict (data : Value) : Except String Product := do
  match data with
  | Value.dict d =>
      let vid ← dictGetE d "id"
      let i ← pyInt vid
      let vname ← dictGetE d "name"
      let n := pyStr vname
      let vdesc ← dictGetE d "description"
      let ds := pyStr vdesc
      let vcost ← dictGetE d "cost"
      let c ← pyFloat vcost
      let q ← pyInt ((dictGet d "qty").getD (Value.int 0))
      return { id := i, name := n, description := ds, cost := c, qty := q }
  | _ => Except.error "TypeError: value is not a dict"

/-- `Product.to_dict` (lines 30-38). -/
def Product.to_dict (p : Product) : Dict :=
  [("id", Value.int p.id),
   ("name", Value.str p.name),
   ("description", Value.str p.description),
   ("cost", Value.float p.cost),
   ("qty", Value.int p.qty)]

/-- `Product.validate` (lines 40-48).  The `isinstance` conjuncts of
the source are true by the typing of the fields (see `Product`); what
remains is `id > 0`, `len(name.strip()) > 0`, `cost >= 0`,
`qty >= 0`. -/
def Product.validate (p : Product) : Bool :=
  decide (0 < p.id) && decide (0 < p.name.trim.length) &&
  decide (0 ≤ p.cost) && decide (0 ≤ p.qty)

/-- A write call made to the products DAO. -/
inductive DaoWrite where
  | add_product (d : Dict)
  | update_qty (product_id qty : Int)

/-- The external products DAO (`products.dao`): reads return
`Except.error` when the underlying call raises; for the write calls the
`_ok` field tells whether the call returns normally (`true`) or raises
(`false`) - the call itself is recorded in the write log either way. -/
structure ProductsDao where
  list_products : Except Unit (List Value)
  get_product : Int → Except Unit Value
  add_product_ok : Dict → Bool
  update_qty_ok : Int → Int → Bool

/-- The Python list comprehension
`[f(x) for x in l]` under exception semantics: elements are processed
left to right and the first exception aborts the whole comprehension. -/
def mapExcept (f : Value → Except String Product) : List Value → Except String (List Product)
  | [] => Except.ok []
  | x :: xs =>
      match f x with
      | Except.error e => Except.error e
      | Except.ok p =>
          match mapExcept f xs with
          | Except.error e => Except.error e
          | Except.ok ps => Except.ok (p :: ps)

/-- `list_products` (lines 50-62): fetch all rows, drop falsy rows,
parse each remaining row; any failure of the fetch or of any single
parse makes the whole call return `[]`. -/
def list_products (dao : ProductsDao) : List Product :=
  match dao.list_products with
  | Except.error _ => []
  | Except.ok products_data =>
      match mapExcept Product.from_dict (products_data.filter pyTruthy) with
      | Except.ok ps => ps
      | Except.error _ => []

/-- `get_product` (lines 64-74): fetch one row; `None` when the row is
falsy, when parsing fails, or when the DAO call raises. -/
def get_product (dao : ProductsDao) (product_id : Int) : Option Product :=
  match dao.get_product product_id with
  | Except.error _ => Option.none
  | Except.ok product_data =>
      if pyTruthy product_data then
        match Product.from_dict product_data with
        | Except.ok p => some p
        | Except.error _ => Option.none
      else Option.none

/-- `add_product` (lines 76-91): parse, validate, and only then call
`dao.add_product`; every exception is converted to `False`.  The
second component is the log of DAO write calls made. -/
def add_product (dao : ProductsDao) (product : Value) : Bool × List DaoWrite :=
  match Product.from_dict product with
  | Except.error _ => (false, [])
  | Except.ok product_instance =>
      if !product_instance.validate then (false, [])
      else if dao.add_product_ok product_instance.to_dict then
        (true, [DaoWrite.add_product product_instance.to_dict])
      else
        (false, [DaoWrite.add_product product_instance.to_dict])

/-- `update_qty` (lines 93-108): reject a negative quantity (the
`isinstance(qty, int)` half of the guard holds by typing), reject a
missing product, then call `dao.update_qty`; every exception is
converted to `False`.  Note the DAO call is made, and hence logged,
even when it raises. -/
def update_qty (dao : ProductsDao) (product_id : Int) (qty : Int) : Bool × List DaoWrite :=
  if qty < 0 then (false, [])
  else
    match get_product dao product_id with
    | Option.none => (false, [])
    | some _ =>
        if dao.update_qty_ok product_id qty then (true, [DaoWrite.update_qty product_id qty])
        else (false, [DaoWrite.update_qty product_id qty])

/-- `batch_update_qty` (lines 110-118): a loop over the entries of the
`updates` dictionary (modelled as an association list in insertion
order, keys unique), collecting the boolean of each entry; the write logs of
the individual calls are concatenated. -/
def batch_update_qty (dao : ProductsDao) (updates : List (Int × Int)) :
    List (Int × Bool) × List DaoWrite :=
  updates.foldl
    (fun acc u =>
      let r := update_qty dao u.fst u.snd
      (acc.fst ++ [(u.fst, r.fst)], acc.snd ++ r.snd))
    ([], [])

/-- Skip JSON whitespace. -/
def skipWs : List Char → List Char
  | c :: cs => if c.isWhitespace then skipWs cs else c :: cs
  | [] => []

/-- Parse a decimal integer (optional leading minus), returning the
value and the rest of the input. -/
def parseIntCs (cs : List Char) : Option (Int × List Char) :=
  match cs with
  | '-' :: rest =>
      let (ds, rest2) := rest.span Char.isDigit
      if ds.isEmpty then Option.none
      else some (-(Int.ofNat (ds.foldl (fun a c => a * 10 + (c.toNat - 48)) 0)), rest2)
  | _ =>
      let (ds, rest2) := cs.span Char.isDigit
      if ds.isEmpty then Option.none
      else some (Int.ofNat (ds.foldl (fun a c => a * 10 + (c.toNat - 48)) 0), rest2)

/-- Parse a non-empty comma-separated sequence of integers (fuelled to
make termination evident; the fuel is the input length, enough since
every item consumes at least one character). -/
def parseItems : Nat → List Char → Option (List Int × List Char)
  | 0, _ => Option.none
  | fuel + 1, cs =>
      match parseIntCs (skipWs cs) with
      | Option.none => Option.none
      | some (n, rest) =>
          match skipWs rest with
          | ',' :: rest2 =>
              match parseItems fuel rest2 with
              | some (ns, rest3) => some (n :: ns, rest3)
              | Option.none => Option.none
          | other => some ([n], other)

/-- `json.loads` restricted to the JSON fragment the cart stores: an
array of integers (the `contents` column holds a JSON-encoded list of
product ids).  Any other input is a decode failure; a JSON document of
another shape would equally end in the `except` arm of the source (via
`TypeError` from `set.update`), which no claim distinguishes. -/
def parseJsonIntList (s : String) : Option (List Int) :=
  match skipWs s.data with
  | '[' :: rest =>
      match skipWs rest with
      | ']' :: tail => if (skipWs tail).isEmpty then some [] else Option.none
      | body =>
          match parseItems (body.length + 1) body with
          | some (ns, rest2) =>
              match skipWs rest2 with
              | ']' :: tail => if (skipWs tail).isEmpty then some ns else Option.none
              | _ => Option.none
          | Option.none => Option.none
  | _ => Option.none

/-- The external cart DAO (`cart.dao`): `get_cart` returns the rows of the user
or raises; the three write calls either return normally (`true`)
or raise (`false`). -/
structure CartDao where
  get_cart : String → Except Unit (List Value)
  add_to_cart_ok : String → Int → Bool
  remove_from_cart_ok : String → Int → Bool
  delete_cart_ok : String → Bool

/-- One iteration of the row loop of `get_cart` (cart lines 42-48):
`json.loads(detail["contents"])` with `KeyError` / `TypeError` /
`JSONDecodeError` mapped to a per-row failure (the `continue`). -/
def decodeContents (detail : Value) : Except Unit (List Int) :=
  match detail with
  | Value.dict d =>
      match dictGet d "contents" with
      | Option.none => Except.error ()
      | some (Value.str s) =>
          match parseJsonIntList s with
          | some ids => Except.ok ids
          | Option.none => Except.error ()
      | some _ => Except.error ()
  | _ => Except.error ()

/-- `product_ids.update(contents)` folded over the rows: a Python
`set`, modelled as a duplicate-free list in first-insertion order (the
claims never rely on an order, matching the unspecified
iteration order of a Python set). -/
def collectIds (rows : List Value) : List Int :=
  rows.foldl
    (fun acc detail =>
      match decodeContents detail with
      | Except.ok contents => contents.foldl (fun a i => if i ∈ a then a else a ++ [i]) acc
      | Except.error _ => acc)
    []

/-- `get_cart` (cart lines 33-58).  The `dao.get_cart` call is NOT
inside a `try` in the source, so its failure propagates to the caller:
the result type is `Except`.  Rows whose contents fail to decode are
skipped; the union of ids is resolved through the
catalog function `get_product` and unresolved ids are dropped (`if product:` - a
`Product` object is always truthy). -/
def get_cart (pdao : ProductsDao) (cdao : CartDao) (username : String) :
    Except Unit (List Product) :=
  match cdao.get_cart username with
  | Except.error e => Except.error e
  | Except.ok cart_details =>
      if cart_details.isEmpty then Except.ok []
      else
        Except.ok ((collectIds cart_details).filterMap (fun i => get_product pdao i))

/-- `add_to_cart` (cart lines 60-68): delegate to the DAO, `False` on
any exception. -/
def add_to_cart (cdao : CartDao) (username : String) (product_id : Int) : Bool :=
  cdao.add_to_cart_ok username product_id

/-- `remove_from_cart` (cart lines 70-78). -/
def remove_from_cart (cdao : CartDao) (username : String) (product_id : Int) : Bool :=
  cdao.remove_from_cart_ok username product_id

/-- `delete_cart` (cart lines 80-88). -/
def delete_cart (cdao : CartDao) (username : String) : Bool :=
  cdao.delete_cart_ok username

/-- Sample catalog row for a product `i` named `nm` (cost 5, qty 10). -/
def prodRow (i : Int) (nm : String) : Value :=
  Value.dict [("id", Value.int i), ("name", Value.str nm),
    ("description", Value.str "d"), ("cost", Value.float 5), ("qty", Value.int 10)]

/-- Sample dictionary of well-typed product fields. -/
def sampleFields : Dict :=
  [("id", Value.int 1), ("name", Value.str "apple"),
   ("description", Value.str "d"), ("cost", Value.float 5), ("qty", Value.int 10)]

def appleProduct : Product := ⟨1, "apple", "d", 5, 10⟩

def bananaProduct : Product := ⟨2, "banana", "d", 5, 10⟩

def pearProduct : Product := ⟨3, "pear", "d", 5, 10⟩

/-- Sample products DAO holding products 1, 2 and 3; all writes succeed. -/
def samplePDao : ProductsDao :=
  { list_products := Except.ok [prodRow 1 "apple", prodRow 2 "banana", prodRow 3 "pear"]
    get_product := fun i =>
      if i = 1 then Except.ok (prodRow 1 "apple")
      else if i = 2 then Except.ok (prodRow 2 "banana")
      else if i = 3 then Except.ok (prodRow 3 "pear")
      else Except.ok Value.vnone
    add_product_ok := fun _ => true
    update_qty_ok := fun _ _ => true }

/-- Sample stored cart row whose `contents` column holds `c`. -/
def cartRow (c : String) : Value :=
  Value.dict [("id", Value.int 7), ("username", Value.str "alice"),
    ("contents", Value.str c), ("cost", Value.float 0)]

/-- Sample cart DAO: two rows for every user, contents `[1, 2]` and `[2, 3]`. -/
def sampleCDao : CartDao :=
  { get_cart := fun _ => Except.ok [cartRow "[1, 2]", cartRow "[2, 3]"]
    add_to_cart_ok := fun _ _ => true
    remove_from_cart_ok := fun _ _ => true
    delete_cart_ok := fun _ => true }

/-- A cart DAO whose every call raises. -/
def failCDao : CartDao :=
  { get_cart := fun _ => Except.error ()
    add_to_cart_ok := fun _ _ => false
    remove_from_cart_ok := fun _ _ => false
    delete_cart_ok := fun _ => false }

/-- A cart DAO with one row referencing product ids 1 and 99. -/
def staleCDao : CartDao :=
  { get_cart := fun _ => Except.ok [cartRow "[1, 99]"]
    add_to_cart_ok := fun _ _ => true
    remove_from_cart_ok := fun _ _ => true
    delete_cart_ok := fun _ => true }

/-- A products DAO holding only product 1; all writes succeed. -/
def oneProductDao : ProductsDao :=
  { list_products := Except.ok [prodRow 1 "apple"]
    get_product := fun i => if i = 1 then Except.ok (prodRow 1 "apple") else Except.ok Value.vnone
    add_product_ok := fun _ => true
    update_qty_ok := fun _ _ => true }

/-- A products DAO holding only product 1, whose write calls all raise. -/
def failingWriteDao : ProductsDao :=
  { list_products := Except.ok [prodRow 1 "apple"]
    get_product := fun i => if i = 1 then Except.ok (prodRow 1 "apple") else Except.ok Value.vnone
    add_product_ok := fun _ => false
    update_qty_ok := fun _ _ => false }

/-- A string differs from the empty string exactly when its length is
positive. -/
theorem string_ne_empty_iff_length_pos (s : String) : s ≠ "" ↔ 0 < s.length := by
  cases s with
  | mk data =>
      cases data with
      | nil => simp [String.length]
      | cons c cs =>
          simp [String.length]
          intro h
          exact absurd (congrArg String.data h) (by simp)

/-- If any element of the list fails to parse, the whole comprehension
fails (with the first such error). -/
theorem mapExcept_error_of_mem (l : List Value) (r : Value) (e : String)
    (hr : r ∈ l) (he : Product.from_dict r = Except.error e) :
    ∃ eo, mapExcept Product.from_dict l = Except.error eo := by
  induction l with
  | nil => cases hr
  | cons x xs ih =>
      rcases List.mem_cons.mp hr with h | h
      · subst h
        exact ⟨e, by unfold mapExcept; rw [he]⟩
      · rcases ih h with ⟨eo, heo⟩
        unfold mapExcept
        cases hfx : Product.from_dict x with
        | error e2 => exact ⟨e2, rfl⟩
        | ok p => rw [heo]; exact ⟨eo, rfl⟩

/-- The loop of `batch_update_qty`, characterized: results and write
logs are those of the independent per-entry calls, in order. -/
theorem batch_foldl_spec (dao : ProductsDao) (updates : List (Int × Int))
    (acc : List (Int × Bool) × List DaoWrite) :
    updates.foldl
      (fun acc u =>
        let r := update_qty dao u.fst u.snd
        (acc.fst ++ [(u.fst, r.fst)], acc.snd ++ r.snd)) acc =
    (acc.fst ++ updates.map (fun u => (u.fst, (update_qty dao u.fst u.snd).fst)),
     acc.snd ++ (updates.map (fun u => (update_qty dao u.fst u.snd).snd)).flatten) := by
  induction updates generalizing acc with
  | nil => simp
  | cons u us ih =>
      simp only [List.foldl, List.map, List.flatten, ih]
      simp [List.append_assoc]

/-- C1: for every username, when the DAO holds two cart rows whose
contents decode to the id lists `[1, 2]` and `[2, 3]` and products 1, 2
and 3 all exist (and are distinct products), `get_cart` returns exactly
the three resolved products, without duplicates, order unspecified: the
ids of all rows are unioned into a set before resolution. -/
theorem c1_get_cart_unions_rows (pdao : ProductsDao) (cdao : CartDao) (username : String)
    (r1 r2 : Value) (p1 p2 p3 : Product)
    (hrows : cdao.get_cart username = Except.ok [r1, r2])
    (h1 : decodeContents r1 = Except.ok [1, 2])
    (h2 : decodeContents r2 = Except.ok [2, 3])
    (hp1 : get_product pdao 1 = some p1)
    (hp2 : get_product pdao 2 = some p2)
    (hp3 : get_product pdao 3 = some p3)
    (hd12 : p1 ≠ p2) (hd13 : p1 ≠ p3) (hd23 : p2 ≠ p3) :
    ∃ l, get_cart pdao cdao username = Except.ok l ∧ l.Perm [p1, p2, p3] ∧ l.Nodup := by
  have hc : collectIds [r1, r2] = [1, 2, 3] := by
    unfold collectIds
    simp only [List.foldl]
    rw [h1, h2]
    decide
  refine ⟨[p1, p2, p3], ?_, List.Perm.refl _, by simp [hd12, hd13, hd23]⟩
  unfold get_cart
  rw [hrows]
  simp only [List.isEmpty, Bool.false_eq_true, if_false]
  rw [hc]
  simp [List.filterMap, hp1, hp2, hp3]

/-- C1 witness: the sample DAOs realize the hypotheses. -/
theorem c1_get_cart_unions_rows_witness :
    ∃ l, get_cart samplePDao sampleCDao "alice" = Except.ok l ∧
      l.Perm [appleProduct, bananaProduct, pearProduct] ∧ l.Nodup :=
  c1_get_cart_unions_rows samplePDao sampleCDao "alice"
    (cartRow "[1, 2]") (cartRow "[2, 3]") appleProduct bananaProduct pearProduct
    rfl rfl rfl rfl rfl rfl (by decide) (by decide) (by decide)

/-- C2 counterexample: the claim says no exception escapes any public
operation for any DAO behaviour, but `get_cart` does not guard the
`dao.get_cart` call: with a cart DAO whose fetch raises, the failure
escapes `get_cart`. -/
theorem c2_uncaught_escape_counterexample :
    get_cart samplePDao failCDao "alice" = Except.error () := rfl

/-- C2 amended: every public operation except `get_cart` catches all
failures and returns a boolean, optional value or sequence (in this
embedding their return types are exception-free); `get_cart` raises
exactly when the DAO cart fetch raises. -/
theorem c2_get_cart_error_iff (pdao : ProductsDao) (cdao : CartDao) (username : String) :
    (∃ e, get_cart pdao cdao username = Except.error e) ↔
    (∃ e, cdao.get_cart username = Except.error e) := by
  unfold get_cart
  cases h : cdao.get_cart username with
  | error e => simp [h]
  | ok rows =>
      by_cases he : rows.isEmpty
      · simp [h, he]
      · simp [h, he]

/-- C3: `batch_update_qty` applies `update_qty` to each entry
independently (second conjunct: its outcome is the list of the
independent per-entry outcomes, its writes their concatenation); for
the mapping 1 to 10, 2 to -1 with product 1 existing and product 2
absent, the result maps 1 to true and 2 to false and the write for
product 1 is performed. -/
theorem c3_batch_independent (dao : ProductsDao) (p1 : Product)
    (h1 : get_product dao 1 = some p1)
    (h2 : get_product dao 2 = Option.none)
    (h3 : dao.update_qty_ok 1 10 = true) :
    batch_update_qty dao [(1, 10), (2, -1)] = ([(1, true), (2, false)], [DaoWrite.update_qty 1 10])
    ∧ ∀ (dao2 : ProductsDao) (updates : List (Int × Int)),
        batch_update_qty dao2 updates =
          (updates.map (fun u => (u.fst, (update_qty dao2 u.fst u.snd).fst)),
           (updates.map (fun u => (update_qty dao2 u.fst u.snd).snd)).flatten) := by
  constructor
  · have e1 : update_qty dao 1 10 = (true, [DaoWrite.update_qty 1 10]) := by
      unfold update_qty
      rw [if_neg (by norm_num : ¬ (10 : Int) < 0), h1, if_pos h3]
    have e2 : update_qty dao 2 (-1) = (false, []) := by
      unfold update_qty
      rw [if_pos (by norm_num : (-1 : Int) < 0)]
    unfold batch_update_qty
    simp [List.foldl, e1, e2]
  · intro dao2 updates
    unfold batch_update_qty
    rw [batch_foldl_spec]
    simp

/-- C3 witness: a DAO holding only product 1, all writes succeeding. -/
theorem c3_batch_independent_witness :
    batch_update_qty oneProductDao [(1, 10), (2, -1)] =
      ([(1, true), (2, false)], [DaoWrite.update_qty 1 10])
    ∧ ∀ (dao2 : ProductsDao) (updates : List (Int × Int)),
        batch_update_qty dao2 updates =
          (updates.map (fun u => (u.fst, (update_qty dao2 u.fst u.snd).fst)),
           (updates.map (fun u => (update_qty dao2 u.fst u.snd).snd)).flatten) :=
  c3_batch_independent oneProductDao appleProduct rfl rfl rfl

/-- C4: for a field dictionary holding all five product fields with
well-typed values, `from_dict` succeeds with exactly those field values
and `to_dict` of the result emits all five fields unchanged. -/
theorem c4_roundtrip (d : Dict) (i : Int) (nm ds : String) (c : ℚ) (q : Int)
    (hid : dictGet d "id" = some (Value.int i))
    (hname : dictGet d "name" = some (Value.str nm))
    (hdesc : dictGet d "description" = some (Value.str ds))
    (hcost : dictGet d "cost" = some (Value.float c))
    (hqty : dictGet d "qty" = some (Value.int q)) :
    Product.from_dict (Value.dict d) = Except.ok ⟨i, nm, ds, c, q⟩ ∧
    (Product.mk i nm ds c q).to_dict =
      [("id", Value.int i), ("name", Value.str nm), ("description", Value.str ds),
       ("cost", Value.float c), ("qty", Value.int q)] := by
  refine ⟨?_, rfl⟩
  simp only [Product.from_dict, dictGetE, hid, hname, hdesc, hcost, hqty]
  rfl

/-- C4 witness: the sample field dictionary round-trips. -/
theorem c4_roundtrip_witness :
    Product.from_dict (Value.dict sampleFields) = Except.ok ⟨1, "apple", "d", 5, 10⟩ ∧
    (Product.mk 1 "apple" "d" 5 10).to_dict =
      [("id", Value.int 1), ("name", Value.str "apple"), ("description", Value.str "d"),
       ("cost", Value.float 5), ("qty", Value.int 10)] :=
  c4_roundtrip sampleFields 1 "apple" "d" 5 10 rfl rfl rfl rfl rfl

/-- C5: `validate` holds exactly when the id is positive, the name is
non-empty after trimming whitespace, and cost and qty are
non-negative. -/
theorem c5_validate_iff (p : Product) :
    p.validate = true ↔ (0 < p.id ∧ p.name.trim ≠ "" ∧ 0 ≤ p.cost ∧ 0 ≤ p.qty) := by
  unfold Product.validate
  simp only [Bool.and_eq_true, decide_eq_true_eq, and_assoc]
  rw [string_ne_empty_iff_length_pos]

/-- C6: `update_qty` returns true only when the quantity is
non-negative and the product exists (via `get_product`); a negative
quantity or a missing product forces false; in particular an update of
an existing product 5 to quantity -1 returns false. -/
theorem c6_update_qty_guard (dao : ProductsDao) (product_id qty : Int) :
    ((update_qty dao product_id qty).fst = true →
      0 ≤ qty ∧ (get_product dao product_id).isSome = true)
    ∧ (qty < 0 → (update_qty dao product_id qty).fst = false)
    ∧ (get_product dao product_id = Option.none → (update_qty dao product_id qty).fst = false)
    ∧ ((get_product dao 5).isSome = true → (update_qty dao 5 (-1)).fst = false) := by
  refine ⟨?_, ?_, ?_, ?_⟩
  · intro h
    unfold update_qty at h
    by_cases hq : qty < 0
    · rw [if_pos hq] at h; exact absurd h (by simp)
    · refine ⟨le_of_not_lt hq, ?_⟩
      rw [if_neg hq] at h
      cases hg : get_product dao product_id with
      | none => rw [hg] at h; exact absurd h (by simp)
      | some p => simp [hg]
  · intro hq
    unfold update_qty
    rw [if_pos hq]
  · intro hg
    unfold update_qty
    by_cases hq : qty < 0
    · rw [if_pos hq]
    · rw [if_neg hq, hg]
  · intro _
    unfold update_qty
    rw [if_pos (by norm_num : (-1 : Int) < 0)]

/-- C7: whenever the DAO cart fetch succeeds, `get_cart` returns
normally (no error) and every returned product is the resolution,
through `get_product`, of an id collected from the stored rows: ids
that resolve to nothing are silently dropped. -/
theorem c7_resolved_only (pdao : ProductsDao) (cdao : CartDao) (username : String)
    (rows : List Value) (hrows : cdao.get_cart username = Except.ok rows) :
    ∃ l, get_cart pdao cdao username = Except.ok l ∧
      ∀ p ∈ l, ∃ i, i ∈ collectIds rows ∧ get_product pdao i = some p := by
  unfold get_cart
  rw [hrows]
  by_cases he : rows.isEmpty
  · exact ⟨[], by simp [he], by simp⟩
  · refine ⟨(collectIds rows).filterMap (fun i => get_product pdao i), by simp [he], ?_⟩
    intro p hp
    rcases List.mem_filterMap.mp hp with ⟨i, hi, hgi⟩
    exact ⟨i, hi, hgi⟩

/-- C7 witness: a row referencing products 1 and 99 where 99 does not
exist; the call still returns normally, with resolved products only. -/
theorem c7_resolved_only_witness :
    ∃ l, get_cart samplePDao staleCDao "alice" = Except.ok l ∧
      ∀ p ∈ l, ∃ i, i ∈ collectIds [cartRow "[1, 99]"] ∧ get_product samplePDao i = some p :=
  c7_resolved_only samplePDao staleCDao "alice" [cartRow "[1, 99]"] rfl

/-- C8: `list_products` returns the empty list when the DAO fetch
raises, and equally when any single fetched row fails to parse - no
partial results, no error propagated. -/
theorem c8_list_products_failure (dao : ProductsDao) :
    ((∃ e, dao.list_products = Except.error e) → list_products dao = [])
    ∧ (∀ rows, dao.list_products = Except.ok rows →
        (∃ r ∈ rows.filter pyTruthy, ∃ e, Product.from_dict r = Except.error e) →
        list_products dao = []) := by
  constructor
  · rintro ⟨e, he⟩
    unfold list_products
    rw [he]
  · rintro rows hok ⟨r, hr, e, he⟩
    rcases mapExcept_error_of_mem (rows.filter pyTruthy) r e hr he with ⟨eo, heo⟩
    simp [list_products, hok, heo]

/-- C9: `add_product` performs the DAO persist call exactly when
structural parsing succeeds and business validation holds; a parse
failure (bad types or missing keys) is caught and yields false with no
persist call. -/
theorem c9_add_product_persists_iff (dao : ProductsDao) (product : Value) :
    (((add_product dao product).snd ≠ []) ↔
      (∃ p, Product.from_dict product = Except.ok p ∧ p.validate = true))
    ∧ (∀ e, Product.from_dict product = Except.error e → add_product dao product = (false, [])) := by
  constructor
  · unfold add_product
    cases hf : Product.from_dict product with
    | error e => simp [hf]
    | ok p =>
        by_cases hv : p.validate
        · by_cases hw : dao.add_product_ok p.to_dict
          · simp [hv, hw]
          · simp [hv, hw]
        · simp [hv, Bool.eq_false_iff.mpr hv]
  · intro e he
    unfold add_product
    rw [he]

/-- C10 counterexample: the claim says a false return means no DAO
write was performed, but when the preconditions hold and the DAO write
call itself raises, `update_qty` returns false although the write call
to `dao.update_qty` was made. -/
theorem c10_write_despite_failure_counterexample :
    (update_qty failingWriteDao 1 10).fst = false ∧
    (update_qty failingWriteDao 1 10).snd = [DaoWrite.update_qty 1 10] := ⟨rfl, rfl⟩

/-- C10 amended: when `update_qty` fails its preconditions - negative
quantity or non-existent product - no DAO write call is performed; only
a failure of the DAO write call itself can produce false after the
write was attempted. -/
theorem c10_no_write_on_precondition_failure (dao : ProductsDao) (product_id qty : Int)
    (h : qty < 0 ∨ get_product dao product_id = Option.none) :
    update_qty dao product_id qty = (false, []) := by
  unfold update_qty
  rcases h with h | h
  · rw [if_pos h]
  · by_cases hq : qty < 0
    · rw [if_pos hq]
    · rw [if_neg hq, h]

/-- C10 amended, witness: product 2 does not exist, so no write call is
made. -/
theorem c10_no_write_on_precondition_failure_witness :
    update_qty failingWriteDao 2 5 = (false, []) :=
  c10_no_write_on_precondition_failure failingWriteDao 2 5 (Or.inr rfl)
